import Mathlib

/-!
# Verification of the claude-code-prometheus usage daemon core

A shallow embedding of the daemon's core logic:

* `parseJSONLFile` (apps/daemon parser): incremental JSONL extraction with
  byte-offset tracking, modelled at the byte level (`List Nat`, one `Nat`
  per byte, newline = 10).
* the daemon position store (`DaemonState`, `getFilePosition`,
  `setFilePosition`) and the watcher callback `processFile`.
* `ApiClient.flush`: the delivery client's retry loop, failure
  classification, queue snapshot/restore and rate-limited notifications.

External primitives (the filesystem, `JSON.parse`, `decodeURIComponent`,
the HTTP transport, `Date.now`) are passed in as explicit parameters or
outcome schedules; everything the repository's own code does is translated
directly.
-/

/-! ## Byte-level line model

The parser pipes a read stream through `readline.createInterface` with
`crlfDelay: Infinity` and handles each emitted line.  Node readline
recognises three line endings: `\r\n` (two bytes, one ending — the
`crlfDelay` setting guarantees this also across chunk boundaries), a bare
`\n`, and a `\r` not followed by `\n`.  It emits each terminated segment
without its ending, and — when the stream ends with an unterminated
segment pending — also emits that remainder as a last line on close.
`lineSplit` computes (terminated segments, trailing remainder);
`emittedLines` is the exact sequence of readline `line` events. -/

/-- Split a byte sequence at readline's line endings — 13-10 (`\r\n`),
bare 10 (`\n`), or 13 not followed by 10 (lone `\r`) — returning the list
of complete lines without their terminators, together with the trailing
remainder after the last ending. -/
def lineSplit : List Nat → List (List Nat) × List Nat
  | [] => ([], [])
  | 13 :: 10 :: rest => (([] : List Nat) :: (lineSplit rest).1, (lineSplit rest).2)
  | 13 :: rest => (([] : List Nat) :: (lineSplit rest).1, (lineSplit rest).2)
  | 10 :: rest => (([] : List Nat) :: (lineSplit rest).1, (lineSplit rest).2)
  | b :: rest =>
    match lineSplit rest with
    | (first :: more, rem) => ((b :: first) :: more, rem)
    | ([], rem) => ([], b :: rem)

/-- The sequence of `line` events readline emits for the given content:
all complete lines, plus the unterminated trailing remainder (emitted on
stream close) when it is nonempty. -/
def emittedLines (content : List Nat) : List (List Nat) :=
  let p := lineSplit content
  p.1 ++ (if p.2 = [] then [] else [p.2])

/-- Whether a byte is ASCII whitespace, as stripped by JavaScript
`String.prototype.trim` on ASCII content. -/
def isWsByte (b : Nat) : Bool :=
  b = 9 || b = 10 || b = 11 || b = 12 || b = 13 || b = 32

/-- Models `!line.trim()`: the line contains only whitespace bytes. -/
def isBlankLine (line : List Nat) : Bool :=
  line.all isWsByte

/-! ## Data model (packages/shared types) -/

/-- The `usage` payload of a Claude Code message.  The TypeScript interface
declares the token counts required, but the parser defends each with
`|| 0`, so at runtime they may be absent: they are modelled as `Option`. -/
structure ClaudeCodeUsage where
  input_tokens : Option Nat
  cache_creation_input_tokens : Option Nat
  cache_read_input_tokens : Option Nat
  output_tokens : Option Nat
  service_tier : Option String
deriving DecidableEq, Repr

/-- Model of `ClaudeCodeMessage` from the shared types (`usage` is optional). -/
structure ClaudeCodeMessage where
  role : String
  content : String
  usage : Option ClaudeCodeUsage
deriving DecidableEq, Repr

/-- One parsed JSONL record (`ClaudeCodeEntry`).  Fields the parser
accesses defensively (`entry.sessionId || …`, `entry.message?.…`) are
`Option`; `costUSD` and `model` are optional in the interface itself. -/
structure ClaudeCodeEntry where
  sessionId : Option String
  uuid : String
  timestamp : String
  type : String
  message : Option ClaudeCodeMessage
  costUSD : Option Rat
  model : Option String
deriving DecidableEq, Repr

/-- A canonical usage event (`UsageEntry` from the shared zod schema). -/
structure UsageEntry where
  sessionId : String
  project : String
  timestamp : String
  type : String
  model : Option String
  inputTokens : Nat
  outputTokens : Nat
  cacheCreationTokens : Nat
  cacheReadTokens : Nat
  costUSD : Option Rat
deriving DecidableEq, Repr

/-- The result type of `parseJSONLFile`. -/
structure ParseResult where
  entries : List UsageEntry
  newPosition : Nat
deriving DecidableEq, Repr

/-! ## Path-derived fallbacks (parser.ts, lines 24-32) -/

/-- JavaScript `a || b` on an optional string: `b` when `a` is absent or
empty (falsy), otherwise `a`. -/
def jsOrString (a : Option String) (b : String) : String :=
  match a with
  | some s => if s = "" then b else s
  | none => b

/-- Replace the first occurrence of `pat` in `s` (JavaScript
`String.prototype.replace` with a string pattern replaces only the first
occurrence). -/
def replaceFirstAux (pat repl : List Char) : List Char → List Char
  | [] => []
  | c :: rest =>
    if pat.isPrefixOf (c :: rest) then
      repl ++ (c :: rest).drop pat.length
    else
      c :: replaceFirstAux pat repl rest

/-- The `String` version of `replaceFirstAux`. -/
def replaceFirst (s pat repl : String) : String :=
  ⟨replaceFirstAux pat.toList repl.toList s.toList⟩

/-- Session-id fallback inferred from the file path: the last `/`-separated
component with its first `.jsonl` removed. -/
def sessionIdOfPath (filePath : String) : String :=
  let pathParts := filePath.splitOn "/"
  let fileName := pathParts.getLastD ""
  replaceFirst fileName ".jsonl" ""

/-- Project fallback inferred from the file path: the component directly
after `projects`, URL-decoded; `unknown` when missing or empty (JavaScript
truthiness of `projectPart`). -/
def projectOfPath (decodeUriComponent : String → String) (filePath : String) : String :=
  let pathParts := filePath.splitOn "/"
  if "projects" ∈ pathParts then
    match pathParts.get? (pathParts.indexOf "projects" + 1) with
    | some p => if p = "" then "unknown" else decodeUriComponent p
    | none => "unknown"
  else "unknown"

/-! ## The extractor (parser.ts `parseJSONLFile`) -/

/-- Build the `UsageEntry` pushed for an assistant record carrying a usage
payload (parser.ts, lines 61-72). -/
def toUsageEntry (entry : ClaudeCodeEntry) (usage : ClaudeCodeUsage)
    (sessionId project : String) : UsageEntry :=
  { sessionId := jsOrString entry.sessionId sessionId
    project := project
    timestamp := entry.timestamp
    type := entry.type
    model := entry.model
    inputTokens := usage.input_tokens.getD 0
    outputTokens := usage.output_tokens.getD 0
    cacheCreationTokens := usage.cache_creation_input_tokens.getD 0
    cacheReadTokens := usage.cache_read_input_tokens.getD 0
    costUSD := entry.costUSD }

/-- The handler run on each readline `line` event (parser.ts, lines 46-78).
The accumulator carries the collected entries and `currentPosition`.
`jsonParse` models `JSON.parse` (`none` = the thrown parse error, which the
code catches, logs and skips). -/
def processLine (jsonParse : List Nat → Option ClaudeCodeEntry)
    (sessionId project : String)
    (acc : List UsageEntry × Nat) (line : List Nat) : List UsageEntry × Nat :=
  let pos := acc.2 + line.length + 1
  if isBlankLine line then (acc.1, pos)
  else
    match jsonParse line with
    | none => (acc.1, pos)
    | some entry =>
      if entry.type = "assistant" then
        match entry.message with
        | some msg =>
          match msg.usage with
          | some usage => (acc.1 ++ [toUsageEntry entry usage sessionId project], pos)
          | none => (acc.1, pos)
        | none => (acc.1, pos)
      else (acc.1, pos)

/-- Model of `parseJSONLFile(filePath, startPosition)`, with the file's current
content passed explicitly as bytes (`stats.size` = `file.length`) and the
external primitives `JSON.parse` / `decodeURIComponent` as parameters:
if nothing new, return the unchanged position; otherwise run the readline
handler over the lines of `file.drop startPosition` and return the
collected entries and `startPosition + currentPosition`. -/
def parseJSONLFile (jsonParse : List Nat → Option ClaudeCodeEntry)
    (decodeUriComponent : String → String)
    (filePath : String) (file : List Nat) (startPosition : Nat) : ParseResult :=
  if file.length ≤ startPosition then
    { entries := [], newPosition := startPosition }
  else
    let sessionId := sessionIdOfPath filePath
    let project := projectOfPath decodeUriComponent filePath
    let content := file.drop startPosition
    let fin := (emittedLines content).foldl (processLine jsonParse sessionId project) ([], 0)
    { entries := fin.1, newPosition := startPosition + fin.2 }

/-! ## Position store (state.ts) and the watcher callback (daemon.ts) -/

/-- Model of `DaemonState`: the persisted path → byte-offset map plus the
`lastSync` timestamp.  The JavaScript record is modelled as a function
`String → Option Nat`. -/
structure DaemonState where
  filePositions : String → Option Nat
  lastSync : String

/-- Model of `getFilePosition`: the stored offset for a path, defaulting to 0. -/
def getFilePosition (state : DaemonState) (filePath : String) : Nat :=
  (state.filePositions filePath).getD 0

/-- Model of `setFilePosition`: store the offset for a path and refresh `lastSync`
(`new Date().toISOString()` is passed in as `nowIso`). -/
def setFilePosition (state : DaemonState) (filePath : String) (position : Nat)
    (nowIso : String) : DaemonState :=
  { filePositions := fun p => if p = filePath then some position else state.filePositions p
    lastSync := nowIso }

/-- JavaScript `s.endsWith(pat)`, computed on the underlying character
lists. -/
def jsEndsWith (s pat : String) : Bool :=
  pat.toList.isSuffixOf s.toList

/-- The watcher callback `processFile` (daemon.ts, lines 248-269), acting
on the daemon state and the client queue (`client.addEntries`).  The
`saveState` call persists the state to disk; that filesystem write has no
effect on the in-memory values modelled here. -/
def processFile (jsonParse : List Nat → Option ClaudeCodeEntry)
    (decodeUriComponent : String → String) (nowIso : String)
    (state : DaemonState) (clientQueue : List UsageEntry)
    (filePath : String) (file : List Nat) : DaemonState × List UsageEntry :=
  if ¬ jsEndsWith filePath ".jsonl" then (state, clientQueue)
  else
    let startPosition := getFilePosition state filePath
    let result := parseJSONLFile jsonParse decodeUriComponent filePath file startPosition
    let clientQueue' :=
      if result.entries.length > 0 then clientQueue ++ result.entries else clientQueue
    let state' :=
      if result.newPosition > startPosition then
        setFilePosition state filePath result.newPosition nowIso
      else state
    (state', clientQueue')

/-! ## Delivery client (client.ts `ApiClient`)

One delivery attempt's observable outcome is abstracted as
`AttemptOutcome`: a 2xx response whose body parsed to
`{processed}` (`ok`), a non-2xx status with its body text (`httpError`),
or a thrown transport error (`netError`, with the `Error` message when
there was one).  `Date.now()` is modelled by a single time `now` per
`flush` call: the calls within one flush are at most seconds apart,
far below the 5-minute cooldown they are compared against.  Entries pushed
by `addEntries` while the flush is suspended at its await points land in
`this.queue` (cleared at flush start) and are modelled by the list
`appendedDuring`. -/

/-- The observable outcome of one `fetch` attempt (including reading the
response body). -/
inductive AttemptOutcome where
  | ok (processed : Nat)
  | httpError (status : Nat) (body : String)
  | netError (message : Option String)
deriving DecidableEq, Repr

/-- An emitted OS notification (`sendNotification` call). -/
structure Notif where
  title : String
  message : String
  time : Int
deriving DecidableEq, Repr

/-- The value returned by `flush()`. -/
structure FlushResult where
  success : Bool
  processed : Nat
  error : Option String
deriving DecidableEq, Repr

/-- The mutable fields of an `ApiClient` (constructor options included;
`serverUrl`/`apiKey` only parameterize the HTTP call and are omitted). -/
structure ApiClientState where
  queue : List UsageEntry
  isSending : Bool
  enableNotifications : Bool
  maxRetries : Nat
  retryDelayMs : Nat
  consecutiveFailures : Nat
  lastNotificationTime : Int
deriving DecidableEq, Repr

/-- The constant `notificationCooldownMs = 5 * 60 * 1000` (5 minutes between
notifications). -/
def notificationCooldownMs : Int := 5 * 60 * 1000

/-- Model of `shouldNotify()` over the relevant client fields. -/
def shouldNotify (enableNotifications : Bool) (lastNotificationTime now : Int) : Bool :=
  if ¬ enableNotifications then false
  else if now - lastNotificationTime < notificationCooldownMs then false
  else true

/-- Model of `notify(title, message)`: emit the notification and update
`lastNotificationTime` when `shouldNotify()` allows it.  Returns the new
`lastNotificationTime` and the emitted notifications (zero or one). -/
def notifyStep (enableNotifications : Bool) (lastNotificationTime now : Int)
    (title message : String) : Int × List Notif :=
  if shouldNotify enableNotifications lastNotificationTime now then
    (now, [{ title := title, message := message, time := now }])
  else (lastNotificationTime, [])

/-- Classification of a thrown transport error into a readable message
(client.ts, lines 265-279).  `none` models a thrown value that is not an
`Error`. -/
def classifyNetError (message : Option String) : String :=
  match message with
  | some m =>
    if List.IsInfix "ECONNREFUSED".toList m.toList then
      "Cannot connect to server - is it running?"
    else if List.IsInfix "ETIMEDOUT".toList m.toList then
      "Connection timed out"
    else if List.IsInfix "ENOTFOUND".toList m.toList then
      "Server not found - check URL"
    else m
  | none => "Unknown error occurred"

/-- The data threaded through the retry loop. -/
structure LoopState where
  attempt : Nat
  lastError : Option String
  lastNotificationTime : Int
  notifications : List Notif
  waits : List Nat
deriving DecidableEq, Repr

/-- How the retry loop ended: a successful delivery, or failure (retries
exhausted, or the 401 break). -/
inductive LoopOutcome where
  | delivered (processed : Nat)
  | exhausted
deriving DecidableEq, Repr

/-- The `while (attempt < this.maxRetries)` retry loop (client.ts, lines
223-286).  `outcomes n` is the observable outcome of the (n+1)-st attempt;
the fuel argument equals `maxRetries - ls.attempt`, so running out of fuel
is exactly the loop condition failing. -/
def flushLoop (outcomes : Nat → AttemptOutcome) (now : Int)
    (enableNotifications : Bool) (maxRetries retryDelayMs : Nat) :
    Nat → LoopState → LoopOutcome × LoopState
  | 0, ls => (.exhausted, ls)
  | fuel + 1, ls =>
    let attempt := ls.attempt + 1
    match outcomes ls.attempt with
    | .ok processed =>
      (.delivered processed, { ls with attempt := attempt })
    | .httpError status body =>
      if status = 401 then
        let lastError := "Authentication failed - invalid or expired API key"
        let n := notifyStep enableNotifications ls.lastNotificationTime now
          "Claude Usage Daemon" ("Error: " ++ lastError)
        (.exhausted,
          { attempt := attempt
            lastError := some lastError
            lastNotificationTime := n.1
            notifications := ls.notifications ++ n.2
            waits := ls.waits })
      else if status = 429 then
        flushLoop outcomes now enableNotifications maxRetries retryDelayMs fuel
          { attempt := attempt
            lastError := some "Rate limited - too many requests"
            lastNotificationTime := ls.lastNotificationTime
            notifications := ls.notifications
            waits := ls.waits ++ [retryDelayMs * 2] }
      else
        let lastError := some ("Server error (" ++ toString status ++ "): " ++ body)
        flushLoop outcomes now enableNotifications maxRetries retryDelayMs fuel
          { attempt := attempt
            lastError := lastError
            lastNotificationTime := ls.lastNotificationTime
            notifications := ls.notifications
            waits := ls.waits ++ (if attempt < maxRetries then [retryDelayMs] else []) }
    | .netError message =>
      flushLoop outcomes now enableNotifications maxRetries retryDelayMs fuel
        { attempt := attempt
          lastError := some (classifyNetError message)
          lastNotificationTime := ls.lastNotificationTime
          notifications := ls.notifications
          waits := ls.waits ++ (if attempt < maxRetries then [retryDelayMs] else []) }

/-- Everything observable about one `flush()` call: the client state
afterward, the returned value, the number of delivery attempts made, the
waits performed (in ms, in order), and the notifications emitted. -/
structure FlushRecord where
  state : ApiClientState
  result : FlushResult
  attempts : Nat
  waits : List Nat
  notifications : List Notif
deriving DecidableEq, Repr

/-- Model of `ApiClient.flush()` (client.ts, lines 209-303). -/
def ApiClient.flush (st : ApiClientState) (outcomes : Nat → AttemptOutcome)
    (now : Int) (appendedDuring : List UsageEntry) : FlushRecord :=
  if st.queue = [] ∨ st.isSending then
    { state := st, result := { success := true, processed := 0, error := none }
      attempts := 0, waits := [], notifications := [] }
  else
    let entriesToSend := st.queue
    let r := flushLoop outcomes now st.enableNotifications st.maxRetries st.retryDelayMs
      st.maxRetries
      { attempt := 0, lastError := none, lastNotificationTime := st.lastNotificationTime
        notifications := [], waits := [] }
    match r.1 with
    | .delivered processed =>
      { state :=
          { st with queue := appendedDuring, isSending := false, consecutiveFailures := 0
                    lastNotificationTime := r.2.lastNotificationTime }
        result := { success := true, processed := processed, error := none }
        attempts := r.2.attempt, waits := r.2.waits, notifications := r.2.notifications }
    | .exhausted =>
      let failures := st.consecutiveFailures + 1
      let n :=
        if 3 ≤ failures then
          notifyStep st.enableNotifications r.2.lastNotificationTime now
            "Claude Usage Daemon Error"
            ("Failed to sync data after " ++ toString failures ++ " attempts. " ++
              r.2.lastError.getD "undefined")
        else (r.2.lastNotificationTime, [])
      { state :=
          { st with queue := entriesToSend ++ appendedDuring, isSending := false
                    consecutiveFailures := failures, lastNotificationTime := n.1 }
        result := { success := false, processed := 0, error := r.2.lastError }
        attempts := r.2.attempt, waits := r.2.waits
        notifications := r.2.notifications ++ n.2 }

/-! ## Concrete fixtures (used by witnesses) -/

/-- A sample usage payload. -/
def sampleUsage : ClaudeCodeUsage :=
  ⟨some 5, some 1, some 2, some 7, none⟩

/-- A sample assistant message carrying `sampleUsage`. -/
def sampleMessage : ClaudeCodeMessage :=
  ⟨"assistant", "", some sampleUsage⟩

/-- A sample parsed assistant record. -/
def sampleEntry : ClaudeCodeEntry :=
  ⟨none, "u1", "2025-01-01T00:00:00.000Z", "assistant", some sampleMessage, none,
    some "claude-sonnet-4-20250514"⟩

/-- A sample `JSON.parse` oracle: byte 68 (`D`) alone is a malformed line,
everything else parses to `sampleEntry`. -/
def sampleParse : List Nat → Option ClaudeCodeEntry :=
  fun l => if l = [68] then none else some sampleEntry

/-- A sample queued usage event. -/
def sampleUsageEntry : UsageEntry :=
  ⟨"s1", "proj", "2025-01-01T00:00:00.000Z", "assistant", none, 1, 2, 0, 0, none⟩

/-- A second sample queued usage event. -/
def sampleUsageEntry2 : UsageEntry :=
  ⟨"s2", "proj", "2025-01-01T00:00:01.000Z", "assistant", none, 3, 4, 0, 0, none⟩

/-- A sample client state: nonempty queue, idle, default options, fresh
failure counter, last notification far in the past. -/
def sampleClient : ApiClientState :=
  ⟨[sampleUsageEntry], false, true, 3, 5000, 0, -400000⟩

/-- A sample outcome schedule: every attempt throws a non-`Error` value
(classified as an unknown error). -/
def sampleOutcome : Nat → AttemptOutcome := fun _ => .netError none

/-- A sample watched file path. -/
def samplePath : String := "/root/.claude/projects/proj/sess.jsonl"

/-- A sample daemon state storing offset 5 for `samplePath`. -/
def sampleState : DaemonState :=
  ⟨fun q => if q = samplePath then some 5 else none, "2025-01-01T00:00:00.000Z"⟩

/-! ## Lemmas about the extractor -/

/-- The consumed-byte counter advances by `line.length + 1` on every line,
whatever the handler does with the line. -/
theorem processLine_snd (jp : List Nat → Option ClaudeCodeEntry) (s pr : String)
    (acc : List UsageEntry × Nat) (line : List Nat) :
    (processLine jp s pr acc line).2 = acc.2 + line.length + 1 := by
  unfold processLine
  repeat' split
  all_goals rfl

/-- Folding the line handler adds the byte lengths (terminators included)
of all handled lines to the counter. -/
theorem foldl_processLine_snd (jp : List Nat → Option ClaudeCodeEntry) (s pr : String) :
    ∀ (ls : List (List Nat)) (acc : List UsageEntry × Nat),
      (ls.foldl (processLine jp s pr) acc).2
        = acc.2 + (ls.map (fun l => l.length + 1)).sum := by
  intro ls
  induction ls with
  | nil => intro acc; simp
  | cons l rest ih =>
    intro acc
    rw [List.foldl_cons, ih]
    rw [processLine_snd]
    simp
    omega

/-- When nothing new is in the file, `parseJSONLFile` returns no entries
and the unchanged position. -/
theorem parseJSONLFile_stale (jp : List Nat → Option ClaudeCodeEntry)
    (dec : String → String) (path : String) (file : List Nat) (start : Nat)
    (h : file.length ≤ start) :
    parseJSONLFile jp dec path file start = { entries := [], newPosition := start } := by
  unfold parseJSONLFile
  simp [h]

/-- The returned position is never below the starting position. -/
theorem parseJSONLFile_start_le (jp : List Nat → Option ClaudeCodeEntry)
    (dec : String → String) (path : String) (file : List Nat) (start : Nat) :
    start ≤ (parseJSONLFile jp dec path file start).newPosition := by
  unfold parseJSONLFile
  by_cases h : file.length ≤ start <;> simp [h]

/-- Peeling one LF-terminated line off the front of the content: when the
line's bytes contain neither of readline's terminator bytes, the `\n` is
consumed as a one-byte line ending. -/
theorem lineSplit_append (l rest : List Nat) (hl : (10 : Nat) ∉ l)
    (hr : (13 : Nat) ∉ l) :
    lineSplit (l ++ 10 :: rest) = (l :: (lineSplit rest).1, (lineSplit rest).2) := by
  induction l with
  | nil => simp [lineSplit]
  | cons c cs ih =>
    have hc : c ≠ 10 := by
      intro h
      exact hl (by simp [h])
    have hc13 : c ≠ 13 := by
      intro h
      exact hr (by simp [h])
    have hcs : (10 : Nat) ∉ cs := fun h => hl (List.mem_cons_of_mem _ h)
    have hcs13 : (13 : Nat) ∉ cs := fun h => hr (List.mem_cons_of_mem _ h)
    have ih2 := ih hcs hcs13
    rw [List.cons_append, lineSplit.eq_def]
    split
    · simp_all
    · simp_all
    · simp_all
    · simp_all
    · simp_all

/-- A line whose `JSON.parse` fails (or which is blank) adds no entry. -/
theorem processLine_entries_of_none (jp : List Nat → Option ClaudeCodeEntry)
    (s pr : String) (acc : List UsageEntry × Nat) (line : List Nat)
    (h : jp line = none) :
    (processLine jp s pr acc line).1 = acc.1 := by
  unfold processLine
  by_cases hb : isBlankLine line <;> simp [hb, h]

/-- A non-blank line parsing to an assistant record with a usage payload
appends exactly the mapped event. -/
theorem processLine_entries_of_usage (jp : List Nat → Option ClaudeCodeEntry)
    (s pr : String) (acc : List UsageEntry × Nat) (line : List Nat)
    (e : ClaudeCodeEntry) (msg : ClaudeCodeMessage) (u : ClaudeCodeUsage)
    (hb : isBlankLine line = false) (hp : jp line = some e)
    (ht : e.type = "assistant") (hm : e.message = some msg) (hu : msg.usage = some u) :
    (processLine jp s pr acc line).1 = acc.1 ++ [toUsageEntry e u s pr] := by
  unfold processLine
  simp [hb, hp, ht, hm, hu]

/-! ## Claims about the extractor and the position store -/

/-- Claim C1: the claim says a trailing line with no terminating newline
contributes zero bytes to the advance.  The code pipes the read stream
through readline, which emits the trailing unterminated segment as a final
`line` event, and the handler adds its length plus one for a newline that
is not there: for the 4-byte file `x\nab` read from offset 0, the single
complete line accounts for 2 bytes, yet `newPosition` is 5 — past the end
of the file — instead of 2, so the incomplete bytes are never re-read. -/
theorem claim_C1 :
    parseJSONLFile (fun _ => none) id "/r/projects/p/s.jsonl" [120, 10, 97, 98] 0
      = { entries := [], newPosition := 5 } ∧
    ((lineSplit [120, 10, 97, 98]).1.map (fun l => l.length + 1)).sum = 2 ∧
    ([120, 10, 97, 98] : List Nat).length < 5 ∧ (5 : Nat) ≠ 2 :=
  ⟨by decide, by decide, by decide, by decide⟩

set_option maxRecDepth 8000 in
/-- Claim C2, counterexample: with a stored offset of 1000 and a current
file size of 200, extraction does not reset to 0 and re-process: it
returns no entries and leaves the position at 1000, and `processFile`
keeps the stored offset at 1000. -/
theorem claim_C2_counterexample :
    parseJSONLFile (fun _ => none) id "/r/projects/p/s.jsonl" (List.replicate 200 120) 1000
      = { entries := [], newPosition := 1000 } ∧
    getFilePosition
      (processFile (fun _ => none) id "2025-01-01T00:00:00.000Z"
          { filePositions := fun q => if q = "/r/projects/p/s.jsonl" then some 1000 else none,
            lastSync := "" }
          [] "/r/projects/p/s.jsonl" (List.replicate 200 120)).1
      "/r/projects/p/s.jsonl" = 1000 ∧
    (1000 : Nat) ≠ 0 :=
  ⟨by decide, by decide, by decide⟩

/-- Claim C2, amended: when a file's stored offset is at least its current
size (truncation/rotation included), extraction returns no events and the
same offset unchanged, and `processFile` leaves the daemon state and the
queue untouched — the file's existing content is not re-processed. -/
theorem claim_C2 (jp : List Nat → Option ClaudeCodeEntry) (dec : String → String)
    (nowIso : String) (state : DaemonState) (q : List UsageEntry)
    (path : String) (file : List Nat)
    (h : file.length ≤ getFilePosition state path) :
    parseJSONLFile jp dec path file (getFilePosition state path)
      = { entries := [], newPosition := getFilePosition state path } ∧
    processFile jp dec nowIso state q path file = (state, q) := by
  refine ⟨parseJSONLFile_stale jp dec path file _ h, ?_⟩
  unfold processFile
  by_cases he : jsEndsWith path ".jsonl"
  · simp [he, parseJSONLFile_stale jp dec path file _ h]
  · simp [he]

/-- Witness for `claim_C2`: stored offset 5, file of 2 bytes. -/
theorem claim_C2_witness :
    parseJSONLFile sampleParse id samplePath [65, 10] (getFilePosition sampleState samplePath)
      = { entries := [], newPosition := getFilePosition sampleState samplePath } ∧
    processFile sampleParse id "2025-01-02T00:00:00.000Z" sampleState [] samplePath [65, 10]
      = (sampleState, []) :=
  claim_C2 sampleParse id "2025-01-02T00:00:00.000Z" sampleState [] samplePath [65, 10]
    (by decide)

/-- Claim C6: the claim asserts, for every file, that re-running
extraction from the returned `newPosition` with no file growth yields an
unchanged offset (its first half — size not greater than the offset gives
no events and the same offset — does hold, see `parseJSONLFile_stale`).
The handler counts `line.length + 1` bytes per line while readline
consumes two bytes for a `\r\n` ending, so on CRLF content the returned
position falls short of the file size and re-runs keep advancing: for the
6-byte file `a\r\nb\r\n`, extraction from 0 returns offset 4, re-running
from 4 returns offset 5 ≠ 4, and re-running from 5 returns 6. -/
theorem claim_C6 :
    parseJSONLFile (fun _ => none) id "/r/projects/p/s.jsonl" [97, 13, 10, 98, 13, 10] 0
      = { entries := [], newPosition := 4 } ∧
    parseJSONLFile (fun _ => none) id "/r/projects/p/s.jsonl" [97, 13, 10, 98, 13, 10] 4
      = { entries := [], newPosition := 5 } ∧
    parseJSONLFile (fun _ => none) id "/r/projects/p/s.jsonl" [97, 13, 10, 98, 13, 10] 5
      = { entries := [], newPosition := 6 } ∧
    ([97, 13, 10, 98, 13, 10] : List Nat).length = 6 ∧ (5 : Nat) ≠ 4 :=
  ⟨by decide, by decide, by decide, by decide, by decide⟩

/-- Claim C9: `parseJSONLFile` never returns a position below its starting
position, and `processFile` never decreases any stored offset (it updates
the position only when the returned position is strictly greater). -/
theorem claim_C9 (jp : List Nat → Option ClaudeCodeEntry) (dec : String → String)
    (nowIso : String) (state : DaemonState) (q : List UsageEntry)
    (path p : String) (file : List Nat) (start : Nat) :
    start ≤ (parseJSONLFile jp dec path file start).newPosition ∧
    getFilePosition state p
      ≤ getFilePosition (processFile jp dec nowIso state q path file).1 p := by
  refine ⟨parseJSONLFile_start_le jp dec path file start, ?_⟩
  by_cases he : jsEndsWith path ".jsonl"
  · have hstep : (processFile jp dec nowIso state q path file).1
        = if getFilePosition state path
            < (parseJSONLFile jp dec path file (getFilePosition state path)).newPosition
          then setFilePosition state path
            (parseJSONLFile jp dec path file (getFilePosition state path)).newPosition nowIso
          else state := by
      unfold processFile
      simp [he]
    rw [hstep]
    split
    next hgt =>
      unfold getFilePosition setFilePosition
      by_cases hp : p = path
      · subst hp
        unfold getFilePosition at hgt
        simp
        omega
      · simp [hp]
    next => exact le_refl _
  · unfold processFile
    simp [he]

/-- Claim C7: Scenario A — a file of three valid newline-terminated
assistant-usage lines and one malformed newline-terminated line, with no
trailing incomplete line: extraction from offset 0 returns exactly 3
events and `newPosition` equal to the file size (the counter advances
past the malformed line).  Being single LF-terminated lines, the lines
contain neither of readline's terminator bytes (10 or 13). -/
theorem claim_C7 (jp : List Nat → Option ClaudeCodeEntry) (dec : String → String)
    (path : String) (l1 l2 l3 l4 : List Nat) (e1 e2 e3 : ClaudeCodeEntry)
    (m1 m2 m3 : ClaudeCodeMessage) (u1 u2 u3 : ClaudeCodeUsage)
    (h1n : (10 : Nat) ∉ l1) (h2n : (10 : Nat) ∉ l2)
    (h3n : (10 : Nat) ∉ l3) (h4n : (10 : Nat) ∉ l4)
    (h1r : (13 : Nat) ∉ l1) (h2r : (13 : Nat) ∉ l2)
    (h3r : (13 : Nat) ∉ l3) (h4r : (13 : Nat) ∉ l4)
    (h1b : isBlankLine l1 = false) (h2b : isBlankLine l2 = false)
    (h3b : isBlankLine l3 = false)
    (h1p : jp l1 = some e1) (h2p : jp l2 = some e2) (h3p : jp l3 = some e3)
    (h4p : jp l4 = none)
    (h1t : e1.type = "assistant") (h2t : e2.type = "assistant") (h3t : e3.type = "assistant")
    (h1m : e1.message = some m1) (h2m : e2.message = some m2) (h3m : e3.message = some m3)
    (h1u : m1.usage = some u1) (h2u : m2.usage = some u2) (h3u : m3.usage = some u3) :
    (parseJSONLFile jp dec path
        (l1 ++ 10 :: (l2 ++ 10 :: (l3 ++ 10 :: (l4 ++ [10])))) 0).entries.length = 3 ∧
    (parseJSONLFile jp dec path
        (l1 ++ 10 :: (l2 ++ 10 :: (l3 ++ 10 :: (l4 ++ [10])))) 0).newPosition
      = (l1 ++ 10 :: (l2 ++ 10 :: (l3 ++ 10 :: (l4 ++ [10])))).length := by
  set sid := sessionIdOfPath path with hsid
  set pr := projectOfPath dec path with hpr
  have hsplit : lineSplit (l1 ++ 10 :: (l2 ++ 10 :: (l3 ++ 10 :: (l4 ++ [10]))))
      = ([l1, l2, l3, l4], []) := by
    rw [lineSplit_append _ _ h1n h1r, lineSplit_append _ _ h2n h2r,
      lineSplit_append _ _ h3n h3r]
    rw [show l4 ++ [10] = l4 ++ 10 :: ([] : List Nat) from rfl]
    rw [lineSplit_append _ _ h4n h4r]
    rfl
  have hemit : emittedLines (l1 ++ 10 :: (l2 ++ 10 :: (l3 ++ 10 :: (l4 ++ [10]))))
      = [l1, l2, l3, l4] := by
    unfold emittedLines
    rw [hsplit]
    simp
  have hlen : (l1 ++ 10 :: (l2 ++ 10 :: (l3 ++ 10 :: (l4 ++ [10])))).length
      = l1.length + l2.length + l3.length + l4.length + 4 := by
    simp
    omega
  have hpos : ¬ ((l1 ++ 10 :: (l2 ++ 10 :: (l3 ++ 10 :: (l4 ++ [10])))).length ≤ 0) := by
    rw [hlen]
    omega
  have s1 : ∀ acc : List UsageEntry × Nat,
      processLine jp sid pr acc l1 = (acc.1 ++ [toUsageEntry e1 u1 sid pr],
        acc.2 + l1.length + 1) := by
    intro acc
    exact Prod.ext_iff.2
      ⟨processLine_entries_of_usage jp sid pr acc l1 e1 m1 u1 h1b h1p h1t h1m h1u,
        processLine_snd jp sid pr acc l1⟩
  have s2 : ∀ acc : List UsageEntry × Nat,
      processLine jp sid pr acc l2 = (acc.1 ++ [toUsageEntry e2 u2 sid pr],
        acc.2 + l2.length + 1) := by
    intro acc
    exact Prod.ext_iff.2
      ⟨processLine_entries_of_usage jp sid pr acc l2 e2 m2 u2 h2b h2p h2t h2m h2u,
        processLine_snd jp sid pr acc l2⟩
  have s3 : ∀ acc : List UsageEntry × Nat,
      processLine jp sid pr acc l3 = (acc.1 ++ [toUsageEntry e3 u3 sid pr],
        acc.2 + l3.length + 1) := by
    intro acc
    exact Prod.ext_iff.2
      ⟨processLine_entries_of_usage jp sid pr acc l3 e3 m3 u3 h3b h3p h3t h3m h3u,
        processLine_snd jp sid pr acc l3⟩
  have s4 : ∀ acc : List UsageEntry × Nat,
      processLine jp sid pr acc l4 = (acc.1, acc.2 + l4.length + 1) := by
    intro acc
    exact Prod.ext_iff.2
      ⟨processLine_entries_of_none jp sid pr acc l4 h4p,
        processLine_snd jp sid pr acc l4⟩
  unfold parseJSONLFile
  rw [if_neg hpos]
  simp only [List.drop_zero, hemit, List.foldl_cons, List.foldl_nil, ← hsid, ← hpr]
  rw [s1 ([], 0), s2 _, s3 _, s4 _]
  constructor
  · simp
  · simp only []
    rw [hlen]
    simp
    omega

/-- Witness for `claim_C7`: a concrete 8-byte file `A\nB\nC\nD\n` where
`A`, `B`, `C` parse to assistant-usage records and `D` is malformed. -/
theorem claim_C7_witness :
    (parseJSONLFile sampleParse id samplePath [65, 10, 66, 10, 67, 10, 68, 10] 0).entries.length
      = 3 ∧
    (parseJSONLFile sampleParse id samplePath [65, 10, 66, 10, 67, 10, 68, 10] 0).newPosition
      = ([65, 10, 66, 10, 67, 10, 68, 10] : List Nat).length := by
  have h := claim_C7 sampleParse id samplePath [65] [66] [67] [68]
    sampleEntry sampleEntry sampleEntry sampleMessage sampleMessage sampleMessage
    sampleUsage sampleUsage sampleUsage
    (by decide) (by decide) (by decide) (by decide)
    (by decide) (by decide) (by decide) (by decide)
    (by decide) (by decide) (by decide)
    (by decide) (by decide) (by decide) (by decide)
    rfl rfl rfl rfl rfl rfl rfl rfl rfl
  simpa using h

/-! ## Lemmas about the delivery client -/

/-- Through the retry loop, the notification state is unchanged except for
at most one authentication-failure emission at the 401 break — which also
ends the loop as a failure. -/
theorem flushLoop_spec (o : Nat → AttemptOutcome) (now : Int) (en : Bool) (mr d : Nat) :
    ∀ (fuel : Nat) (ls : LoopState),
      ((flushLoop o now en mr d fuel ls).2.notifications = ls.notifications ∧
        (flushLoop o now en mr d fuel ls).2.lastNotificationTime
          = ls.lastNotificationTime) ∨
      ((flushLoop o now en mr d fuel ls).1 = .exhausted ∧
        (flushLoop o now en mr d fuel ls).2.notifications
          = ls.notifications ++
            [{ title := "Claude Usage Daemon"
               message := "Error: Authentication failed - invalid or expired API key"
               time := now }] ∧
        (flushLoop o now en mr d fuel ls).2.lastNotificationTime = now ∧
        shouldNotify en ls.lastNotificationTime now = true) := by
  intro fuel
  induction fuel with
  | zero =>
    intro ls
    left
    exact ⟨rfl, rfl⟩
  | succ f ih =>
    intro ls
    cases ho : o ls.attempt with
    | ok p =>
      left
      simp [flushLoop, ho]
    | httpError s b =>
      by_cases h401 : s = 401
      · subst h401
        by_cases hsn : shouldNotify en ls.lastNotificationTime now
        · right
          simp [flushLoop, ho, notifyStep, hsn]
        · left
          simp [flushLoop, ho, notifyStep, hsn]
      · by_cases h429 : s = 429
        · subst h429
          simpa [flushLoop, ho] using
            ih { attempt := ls.attempt + 1
                 lastError := some "Rate limited - too many requests"
                 lastNotificationTime := ls.lastNotificationTime
                 notifications := ls.notifications
                 waits := ls.waits ++ [d * 2] }
        · simpa [flushLoop, ho, h401, h429] using
            ih { attempt := ls.attempt + 1
                 lastError := some ("Server error (" ++ toString s ++ "): " ++ b)
                 lastNotificationTime := ls.lastNotificationTime
                 notifications := ls.notifications
                 waits := ls.waits ++ (if ls.attempt + 1 < mr then [d] else []) }
    | netError m =>
      simpa [flushLoop, ho] using
        ih { attempt := ls.attempt + 1
             lastError := some (classifyNetError m)
             lastNotificationTime := ls.lastNotificationTime
             notifications := ls.notifications
             waits := ls.waits ++ (if ls.attempt + 1 < mr then [d] else []) }

/-- A failed `flush()` restores the snapshot in front of whatever was
appended during the attempt, increments the consecutive-failure counter,
and leaves the configuration fields unchanged. -/
theorem flush_fail_spec (st : ApiClientState) (o : Nat → AttemptOutcome) (now : Int)
    (app : List UsageEntry)
    (h : (ApiClient.flush st o now app).result.success = false) :
    (ApiClient.flush st o now app).state.queue = st.queue ++ app ∧
    (ApiClient.flush st o now app).state.consecutiveFailures
      = st.consecutiveFailures + 1 ∧
    (ApiClient.flush st o now app).state.enableNotifications = st.enableNotifications ∧
    (ApiClient.flush st o now app).state.isSending = false ∧
    (ApiClient.flush st o now app).state.maxRetries = st.maxRetries ∧
    (ApiClient.flush st o now app).state.retryDelayMs = st.retryDelayMs := by
  by_cases hE : st.queue = [] ∨ st.isSending = true
  · exfalso
    unfold ApiClient.flush at h
    rw [if_pos hE] at h
    simp at h
  · unfold ApiClient.flush at h ⊢
    rw [if_neg hE] at h ⊢
    rcases hr : (flushLoop o now st.enableNotifications st.maxRetries st.retryDelayMs
        st.maxRetries
        { attempt := 0, lastError := none, lastNotificationTime := st.lastNotificationTime
          notifications := [], waits := [] }).1 with p | _
    · simp [hr] at h
    · simp [hr]

/-- Every `flush()` call emits either no notification (leaving the
notification clock unchanged) or exactly one (stamped `now`), and any
emission passes the cooldown gate against the pre-flush clock. -/
theorem flush_notif_spec (st : ApiClientState) (o : Nat → AttemptOutcome) (now : Int)
    (app : List UsageEntry) :
    ((ApiClient.flush st o now app).notifications = [] ∧
      (ApiClient.flush st o now app).state.lastNotificationTime
        = st.lastNotificationTime) ∨
    ((ApiClient.flush st o now app).notifications.length = 1 ∧
      (ApiClient.flush st o now app).state.lastNotificationTime = now ∧
      shouldNotify st.enableNotifications st.lastNotificationTime now = true) := by
  by_cases hE : st.queue = [] ∨ st.isSending = true
  · left
    unfold ApiClient.flush
    rw [if_pos hE]
    exact ⟨rfl, rfl⟩
  · unfold ApiClient.flush
    rw [if_neg hE]
    have hL := flushLoop_spec o now st.enableNotifications st.maxRetries st.retryDelayMs
      st.maxRetries
      { attempt := 0, lastError := none, lastNotificationTime := st.lastNotificationTime
        notifications := [], waits := [] }
    rcases hr : (flushLoop o now st.enableNotifications st.maxRetries st.retryDelayMs
        st.maxRetries
        { attempt := 0, lastError := none, lastNotificationTime := st.lastNotificationTime
          notifications := [], waits := [] }).1 with p | _
    · rcases hL with ⟨hn, hl⟩ | ⟨hex, _, _, _⟩
      · left
        simp [hr, hn, hl]
      · rw [hr] at hex
        simp at hex
    · rcases hL with ⟨hn, hl⟩ | ⟨_, hn, hl, hsn⟩
      · by_cases h3 : 3 ≤ st.consecutiveFailures + 1
        · by_cases hsn : shouldNotify st.enableNotifications st.lastNotificationTime now
          · right
            simp [hr, hn, hl, h3, notifyStep, hsn]
          · left
            simp [hr, hn, hl, h3, notifyStep, hsn]
        · left
          simp [hr, hn, hl, h3]
      · right
        have hz : shouldNotify st.enableNotifications now now = false := by
          cases hen : st.enableNotifications <;>
            simp [shouldNotify, notificationCooldownMs]
        by_cases h3 : 3 ≤ st.consecutiveFailures + 1
        · simp [hr, hn, hl, h3, notifyStep, hz, hsn]
        · simp [hr, hn, hl, h3, hsn]

/-- When the cooldown gate is closed at flush time, no notification is
emitted and the clock is untouched. -/
theorem flush_suppressed (st : ApiClientState) (o : Nat → AttemptOutcome) (now : Int)
    (app : List UsageEntry)
    (hsn : shouldNotify st.enableNotifications st.lastNotificationTime now = false) :
    (ApiClient.flush st o now app).notifications = [] ∧
    (ApiClient.flush st o now app).state.lastNotificationTime
      = st.lastNotificationTime := by
  rcases flush_notif_spec st o now app with h | ⟨_, _, h⟩
  · exact h
  · rw [hsn] at h
    simp at h

/-- A failing flush that takes the consecutive-failure counter to 3 or
beyond, with notifications enabled and the cooldown elapsed, does emit a
notification. -/
theorem flush_guarantee (st : ApiClientState) (o : Nat → AttemptOutcome) (now : Int)
    (app : List UsageEntry)
    (hfail : (ApiClient.flush st o now app).result.success = false)
    (h3 : 3 ≤ st.consecutiveFailures + 1)
    (hsn : shouldNotify st.enableNotifications st.lastNotificationTime now = true) :
    (ApiClient.flush st o now app).notifications ≠ [] := by
  by_cases hE : st.queue = [] ∨ st.isSending = true
  · exfalso
    unfold ApiClient.flush at hfail
    rw [if_pos hE] at hfail
    simp at hfail
  · unfold ApiClient.flush at hfail ⊢
    rw [if_neg hE] at hfail ⊢
    have hL := flushLoop_spec o now st.enableNotifications st.maxRetries st.retryDelayMs
      st.maxRetries
      { attempt := 0, lastError := none, lastNotificationTime := st.lastNotificationTime
        notifications := [], waits := [] }
    rcases hr : (flushLoop o now st.enableNotifications st.maxRetries st.retryDelayMs
        st.maxRetries
        { attempt := 0, lastError := none, lastNotificationTime := st.lastNotificationTime
          notifications := [], waits := [] }).1 with p | _
    · simp [hr] at hfail
    · rcases hL with ⟨hn, hl⟩ | ⟨_, hn, _, _⟩
      · simp [hr, hn, hl, h3, notifyStep, hsn]
      · simp [hr, hn]

/-- A notification with the sustained-failure title is only emitted by a
flush whose end state has a consecutive-failure counter of at least 3. -/
theorem flush_sustained_counter (st : ApiClientState) (o : Nat → AttemptOutcome)
    (now : Int) (app : List UsageEntry) (n : Notif)
    (hmem : n ∈ (ApiClient.flush st o now app).notifications)
    (ht : n.title = "Claude Usage Daemon Error") :
    3 ≤ (ApiClient.flush st o now app).state.consecutiveFailures := by
  by_cases hE : st.queue = [] ∨ st.isSending = true
  · exfalso
    unfold ApiClient.flush at hmem
    rw [if_pos hE] at hmem
    simp at hmem
  · unfold ApiClient.flush at hmem ⊢
    rw [if_neg hE] at hmem ⊢
    have hL := flushLoop_spec o now st.enableNotifications st.maxRetries st.retryDelayMs
      st.maxRetries
      { attempt := 0, lastError := none, lastNotificationTime := st.lastNotificationTime
        notifications := [], waits := [] }
    rcases hr : (flushLoop o now st.enableNotifications st.maxRetries st.retryDelayMs
        st.maxRetries
        { attempt := 0, lastError := none, lastNotificationTime := st.lastNotificationTime
          notifications := [], waits := [] }).1 with p | _
    · rcases hL with ⟨hn, _⟩ | ⟨hex, _, _, _⟩
      · simp [hr, hn] at hmem
      · rw [hr] at hex
        simp at hex
    · rcases hL with ⟨hn, hl⟩ | ⟨_, hn, hl, _⟩
      · by_cases h3 : 3 ≤ st.consecutiveFailures + 1
        · simp [hr, h3]
        · exfalso
          simp [hr, hn, h3] at hmem
      · by_cases h3 : 3 ≤ st.consecutiveFailures + 1
        · simp [hr, h3]
        · exfalso
          simp [hr, hn, h3] at hmem
          rw [hmem] at ht
          simp at ht

/-! ## Claims about the delivery client -/

/-- Claim C3: when `flush()` fails, the queue afterward is exactly the
pre-flush snapshot followed by everything appended during the attempt, in
order, with no duplicates and no omissions. -/
theorem claim_C3 (st : ApiClientState) (o : Nat → AttemptOutcome) (now : Int)
    (app : List UsageEntry)
    (h : (ApiClient.flush st o now app).result.success = false) :
    (ApiClient.flush st o now app).state.queue = st.queue ++ app :=
  (flush_fail_spec st o now app h).1

/-- Witness for `claim_C3`: every attempt gets HTTP 500, one entry arrives
during the flush. -/
theorem claim_C3_witness :
    (ApiClient.flush sampleClient (fun _ => .httpError 500 "boom") 0
        [sampleUsageEntry2]).state.queue
      = sampleClient.queue ++ [sampleUsageEntry2] :=
  claim_C3 sampleClient (fun _ => .httpError 500 "boom") 0 [sampleUsageEntry2] (by decide)

/-- Claim C10: a `flush()` invoked with an empty queue or while another
flush is in flight returns `{success: true, processed: 0}` without any
delivery attempt, wait, or notification, and leaves the client state
untouched. -/
theorem claim_C10 (st : ApiClientState) (o : Nat → AttemptOutcome) (now : Int)
    (app : List UsageEntry) (h : st.queue = [] ∨ st.isSending = true) :
    ApiClient.flush st o now app
      = { state := st, result := { success := true, processed := 0, error := none }
          attempts := 0, waits := [], notifications := [] } := by
  unfold ApiClient.flush
  rw [if_pos h]

/-- Witness for `claim_C10`: an empty queue. -/
theorem claim_C10_witness :
    ApiClient.flush { sampleClient with queue := [] } (fun _ => .ok 7) 0 []
      = { state := { sampleClient with queue := [] }
          result := { success := true, processed := 0, error := none }
          attempts := 0, waits := [], notifications := [] } :=
  claim_C10 { sampleClient with queue := [] } (fun _ => .ok 7) 0 [] (Or.inl rfl)

/-- Claim C4: when the collector responds HTTP 401, `flush()` makes exactly
one delivery attempt, records the authentication-failure message, and
returns failure with that message and zero processed. -/
theorem claim_C4 (st : ApiClientState) (o : Nat → AttemptOutcome) (now : Int)
    (app : List UsageEntry) (body : String)
    (hq : st.queue ≠ []) (hs : st.isSending = false) (hm : 1 ≤ st.maxRetries)
    (h0 : o 0 = .httpError 401 body) :
    (ApiClient.flush st o now app).attempts = 1 ∧
    (ApiClient.flush st o now app).result.success = false ∧
    (ApiClient.flush st o now app).result.error
      = some "Authentication failed - invalid or expired API key" ∧
    (ApiClient.flush st o now app).result.processed = 0 := by
  have hE : ¬ (st.queue = [] ∨ st.isSending = true) := by
    rintro (h | h)
    · exact hq h
    · rw [hs] at h
      simp at h
  obtain ⟨f, hf⟩ : ∃ f, st.maxRetries = f + 1 := ⟨st.maxRetries - 1, by omega⟩
  unfold ApiClient.flush
  rw [if_neg hE, hf]
  simp [flushLoop, h0]

/-- Witness for `claim_C4`. -/
theorem claim_C4_witness :
    (ApiClient.flush sampleClient (fun _ => .httpError 401 "denied") 0 []).attempts = 1 ∧
    (ApiClient.flush sampleClient (fun _ => .httpError 401 "denied") 0 []).result.success
      = false ∧
    (ApiClient.flush sampleClient (fun _ => .httpError 401 "denied") 0 []).result.error
      = some "Authentication failed - invalid or expired API key" ∧
    (ApiClient.flush sampleClient (fun _ => .httpError 401 "denied") 0 []).result.processed
      = 0 :=
  claim_C4 sampleClient (fun _ => .httpError 401 "denied") 0 [] "denied"
    (by decide) (by decide) (by decide) (by decide)

/-- Claim C8: when the collector responds 429 on the first two attempts and
2xx on the third, `flush()` (default `maxRetries = 3`) succeeds on the
third attempt with the processed count from the response, having waited
the doubled base delay before each retry following a 429. -/
theorem claim_C8 (st : ApiClientState) (o : Nat → AttemptOutcome) (now : Int)
    (app : List UsageEntry) (b0 b1 : String) (p : Nat)
    (hq : st.queue ≠ []) (hs : st.isSending = false) (hm : st.maxRetries = 3)
    (h0 : o 0 = .httpError 429 b0) (h1 : o 1 = .httpError 429 b1) (h2 : o 2 = .ok p) :
    (ApiClient.flush st o now app).attempts = 3 ∧
    (ApiClient.flush st o now app).result.success = true ∧
    (ApiClient.flush st o now app).result.processed = p ∧
    (ApiClient.flush st o now app).waits
      = [st.retryDelayMs * 2, st.retryDelayMs * 2] := by
  have hE : ¬ (st.queue = [] ∨ st.isSending = true) := by
    rintro (h | h)
    · exact hq h
    · rw [hs] at h
      simp at h
  unfold ApiClient.flush
  rw [if_neg hE, hm]
  simp [flushLoop, h0, h1, h2]

/-- Witness for `claim_C8`. -/
theorem claim_C8_witness :
    (ApiClient.flush sampleClient
        (fun n => if n < 2 then .httpError 429 "slow down" else .ok 1) 0 []).attempts = 3 ∧
    (ApiClient.flush sampleClient
        (fun n => if n < 2 then .httpError 429 "slow down" else .ok 1) 0
        []).result.success = true ∧
    (ApiClient.flush sampleClient
        (fun n => if n < 2 then .httpError 429 "slow down" else .ok 1) 0
        []).result.processed = 1 ∧
    (ApiClient.flush sampleClient
        (fun n => if n < 2 then .httpError 429 "slow down" else .ok 1) 0 []).waits
      = [sampleClient.retryDelayMs * 2, sampleClient.retryDelayMs * 2] :=
  claim_C8 sampleClient (fun n => if n < 2 then .httpError 429 "slow down" else .ok 1)
    0 [] "slow down" "slow down" 1
    (by decide) (by decide) (by decide) (by decide) (by decide) (by decide)

/-- The notification gate is closed strictly within the cooldown window,
whatever the enable flag. -/
theorem shouldNotify_within (en : Bool) (last now : Int)
    (h : now - last < notificationCooldownMs) :
    shouldNotify en last now = false := by
  cases en <;> simp [shouldNotify, h]

/-- The notification gate is open once the cooldown has elapsed and
notifications are enabled. -/
theorem shouldNotify_elapsed (last now : Int)
    (h : notificationCooldownMs ≤ now - last) :
    shouldNotify true last now = true := by
  unfold shouldNotify
  rw [if_neg (by simp), if_neg (by omega)]

/-- Claim C5: the sustained-failure notification is emitted only when the
consecutive-failure counter has reached 3; and across a fresh client's
flush calls all failing inside one 5-minute cooldown window, the first
three failures emit exactly one notification in total and a fourth
failure in the same window emits none. -/
theorem claim_C5 (st : ApiClientState)
    (o1 o2 o3 o4 : Nat → AttemptOutcome) (t1 t2 t3 t4 : Int)
    (a1 a2 a3 a4 : List UsageEntry)
    (hen : st.enableNotifications = true)
    (hcf : st.consecutiveFailures = 0)
    (h12 : t1 ≤ t2) (h23 : t2 ≤ t3) (h34 : t3 ≤ t4)
    (hwin : t4 - t1 < notificationCooldownMs)
    (hcool : notificationCooldownMs ≤ t1 - st.lastNotificationTime)
    (hf1 : (ApiClient.flush st o1 t1 a1).result.success = false)
    (hf2 : (ApiClient.flush (ApiClient.flush st o1 t1 a1).state
        o2 t2 a2).result.success = false)
    (hf3 : (ApiClient.flush (ApiClient.flush (ApiClient.flush st o1 t1 a1).state
        o2 t2 a2).state o3 t3 a3).result.success = false)
    (_hf4 : (ApiClient.flush (ApiClient.flush (ApiClient.flush
        (ApiClient.flush st o1 t1 a1).state o2 t2 a2).state o3 t3 a3).state
        o4 t4 a4).result.success = false) :
    (∀ (st' : ApiClientState) (o : Nat → AttemptOutcome) (t : Int)
        (a : List UsageEntry) (n : Notif),
      n ∈ (ApiClient.flush st' o t a).notifications →
      n.title = "Claude Usage Daemon Error" →
      3 ≤ (ApiClient.flush st' o t a).state.consecutiveFailures) ∧
    ((ApiClient.flush st o1 t1 a1).notifications
      ++ (ApiClient.flush (ApiClient.flush st o1 t1 a1).state o2 t2 a2).notifications
      ++ (ApiClient.flush (ApiClient.flush (ApiClient.flush st o1 t1 a1).state
          o2 t2 a2).state o3 t3 a3).notifications).length = 1 ∧
    (ApiClient.flush (ApiClient.flush (ApiClient.flush
        (ApiClient.flush st o1 t1 a1).state o2 t2 a2).state o3 t3 a3).state
        o4 t4 a4).notifications = [] := by
  refine ⟨fun st' o t a n hmem ht => flush_sustained_counter st' o t a n hmem ht, ?_⟩
  have hfs1 := flush_fail_spec st o1 t1 a1 hf1
  have hfs2 := flush_fail_spec (ApiClient.flush st o1 t1 a1).state o2 t2 a2 hf2
  have hfs3 := flush_fail_spec
    (ApiClient.flush (ApiClient.flush st o1 t1 a1).state o2 t2 a2).state o3 t3 a3 hf3
  rcases flush_notif_spec st o1 t1 a1 with ⟨hn1, hl1⟩ | ⟨hn1, hl1, _⟩
  · rcases flush_notif_spec (ApiClient.flush st o1 t1 a1).state o2 t2 a2 with
      ⟨hn2, hl2⟩ | ⟨hn2, hl2, _⟩
    · -- first two flushes silent: the third must emit (counter reaches 3)
      have h3 : 3 ≤ (ApiClient.flush (ApiClient.flush st o1 t1 a1).state
          o2 t2 a2).state.consecutiveFailures + 1 := by
        rw [hfs2.2.1, hfs1.2.1, hcf]
      have hsn3 : shouldNotify
          (ApiClient.flush (ApiClient.flush st o1 t1 a1).state
            o2 t2 a2).state.enableNotifications
          (ApiClient.flush (ApiClient.flush st o1 t1 a1).state
            o2 t2 a2).state.lastNotificationTime t3 = true := by
        rw [hfs2.2.2.1, hfs1.2.2.1, hen, hl2, hl1]
        exact shouldNotify_elapsed _ _ (by omega)
      have hne3 := flush_guarantee
        (ApiClient.flush (ApiClient.flush st o1 t1 a1).state o2 t2 a2).state
        o3 t3 a3 hf3 h3 hsn3
      rcases flush_notif_spec
        (ApiClient.flush (ApiClient.flush st o1 t1 a1).state o2 t2 a2).state
        o3 t3 a3 with ⟨hn3, _⟩ | ⟨hn3, hl3, _⟩
      · exact absurd hn3 hne3
      · refine ⟨by simp [hn1, hn2, hn3], ?_⟩
        have hq4 : shouldNotify
            (ApiClient.flush (ApiClient.flush (ApiClient.flush st o1 t1 a1).state
              o2 t2 a2).state o3 t3 a3).state.enableNotifications
            (ApiClient.flush (ApiClient.flush (ApiClient.flush st o1 t1 a1).state
              o2 t2 a2).state o3 t3 a3).state.lastNotificationTime t4 = false := by
          rw [hl3]
          exact shouldNotify_within _ _ _ (by omega)
        exact (flush_suppressed _ o4 t4 a4 hq4).1
    · -- second flush emitted: third and fourth are inside its cooldown
      have hq3 : shouldNotify
          (ApiClient.flush (ApiClient.flush st o1 t1 a1).state
            o2 t2 a2).state.enableNotifications
          (ApiClient.flush (ApiClient.flush st o1 t1 a1).state
            o2 t2 a2).state.lastNotificationTime t3 = false := by
        rw [hl2]
        exact shouldNotify_within _ _ _ (by omega)
      have hs3 := flush_suppressed
        (ApiClient.flush (ApiClient.flush st o1 t1 a1).state o2 t2 a2).state
        o3 t3 a3 hq3
      refine ⟨by simp [hn1, hs3.1, hn2], ?_⟩
      have hq4 : shouldNotify
          (ApiClient.flush (ApiClient.flush (ApiClient.flush st o1 t1 a1).state
            o2 t2 a2).state o3 t3 a3).state.enableNotifications
          (ApiClient.flush (ApiClient.flush (ApiClient.flush st o1 t1 a1).state
            o2 t2 a2).state o3 t3 a3).state.lastNotificationTime t4 = false := by
        rw [hs3.2, hl2]
        exact shouldNotify_within _ _ _ (by omega)
      exact (flush_suppressed _ o4 t4 a4 hq4).1
  · -- first flush emitted: everything later is inside its cooldown
    have hq2 : shouldNotify
        (ApiClient.flush st o1 t1 a1).state.enableNotifications
        (ApiClient.flush st o1 t1 a1).state.lastNotificationTime t2 = false := by
      rw [hl1]
      exact shouldNotify_within _ _ _ (by omega)
    have hs2 := flush_suppressed (ApiClient.flush st o1 t1 a1).state o2 t2 a2 hq2
    have hq3 : shouldNotify
        (ApiClient.flush (ApiClient.flush st o1 t1 a1).state
          o2 t2 a2).state.enableNotifications
        (ApiClient.flush (ApiClient.flush st o1 t1 a1).state
          o2 t2 a2).state.lastNotificationTime t3 = false := by
      rw [hs2.2, hl1]
      exact shouldNotify_within _ _ _ (by omega)
    have hs3 := flush_suppressed
      (ApiClient.flush (ApiClient.flush st o1 t1 a1).state o2 t2 a2).state o3 t3 a3 hq3
    refine ⟨by simp [hs2.1, hs3.1, hn1], ?_⟩
    have hq4 : shouldNotify
        (ApiClient.flush (ApiClient.flush (ApiClient.flush st o1 t1 a1).state
          o2 t2 a2).state o3 t3 a3).state.enableNotifications
        (ApiClient.flush (ApiClient.flush (ApiClient.flush st o1 t1 a1).state
          o2 t2 a2).state o3 t3 a3).state.lastNotificationTime t4 = false := by
      rw [hs3.2, hs2.2, hl1]
      exact shouldNotify_within _ _ _ (by omega)
    exact (flush_suppressed _ o4 t4 a4 hq4).1

/-- Witness for `claim_C5`: four consecutive failing flushes at time 0 on
a fresh client whose last notification is far in the past. -/
theorem claim_C5_witness :
    (∀ (st' : ApiClientState) (o : Nat → AttemptOutcome) (t : Int)
        (a : List UsageEntry) (n : Notif),
      n ∈ (ApiClient.flush st' o t a).notifications →
      n.title = "Claude Usage Daemon Error" →
      3 ≤ (ApiClient.flush st' o t a).state.consecutiveFailures) ∧
    ((ApiClient.flush sampleClient sampleOutcome 0 []).notifications
      ++ (ApiClient.flush (ApiClient.flush sampleClient sampleOutcome 0 []).state
          sampleOutcome 0 []).notifications
      ++ (ApiClient.flush (ApiClient.flush (ApiClient.flush sampleClient
            sampleOutcome 0 []).state sampleOutcome 0 []).state
          sampleOutcome 0 []).notifications).length = 1 ∧
    (ApiClient.flush (ApiClient.flush (ApiClient.flush
        (ApiClient.flush sampleClient sampleOutcome 0 []).state sampleOutcome 0 []).state
        sampleOutcome 0 []).state sampleOutcome 0 []).notifications = [] :=
  claim_C5 sampleClient sampleOutcome sampleOutcome sampleOutcome sampleOutcome
    0 0 0 0 [] [] [] []
    (by decide) (by decide) (by decide) (by decide) (by decide) (by decide) (by decide)
    (by decide) (by decide) (by decide) (by decide)
